import Mathlib

/-!
Verification of the PL2025_ML_Predictor core against its specification.

The development shallowly embeds the two algorithmic parts of the repository:

* `src/backend/websocket_manager.py` — the `LiveMatchService` live-match
  bookkeeping (`update_match_score`, `_update_live_predictions`).  Python
  floats are modelled as exact rationals (`ℚ`), integers as `ℤ`, and the
  `live_matches` / `match_predictions` dictionaries as association lists.
  Wall-clock fields (`updated_at`, event `timestamp`) are omitted: they carry
  no algorithmic content.
* `src/pl_predictor.py` — the rolling-window feature engineering
  (`create_rolling_features`, i.e. pandas `rolling(w, closed='left',
  min_periods=1).mean()`, where a NaN result is modelled as `Option.none`)
  and the Elo-style rating loop (`create_team_strength_features`), whose
  floats are modelled as real numbers because the expected-score formula
  uses a real exponential.
-/

namespace PLPred

/-! ### Live match service (src/backend/websocket_manager.py) -/

/-- An entry of `LiveMatchUpdate.events`.  The source appends a dict with
keys `type`, `minute`, `team`, `score` (a string `f"{h}-{a}"`, modelled as
the pair of scores) and a wall-clock `timestamp` (omitted). -/
structure MatchEvent where
  type : String
  minute : ℤ
  team : String
  score : ℤ × ℤ
  deriving DecidableEq

/-- `LiveMatchUpdate` dataclass: live match state.  `updated_at` (wall
clock) is omitted. -/
structure LiveMatchUpdate where
  match_id : String
  home_team : String
  away_team : String
  minute : ℤ
  home_score : ℤ
  away_score : ℤ
  status : String
  events : List MatchEvent
  deriving DecidableEq

/-- `PredictionUpdate` dataclass.  The source stores each probability and the
confidence rounded to 3 decimals for display; the exact values are modelled.
`updated_at` is omitted. -/
structure PredictionUpdate where
  match_id : String
  home_team : String
  away_team : String
  win_probability : ℚ
  draw_probability : ℚ
  loss_probability : ℚ
  confidence : ℚ
  model_used : String
  deriving DecidableEq

/-- The mutable state of `LiveMatchService`: the `live_matches` and
`match_predictions` dicts (association lists keyed by match id).  The
`update_tasks` dict only holds asyncio task handles and is omitted. -/
structure LiveMatchService where
  live_matches : List (String × LiveMatchUpdate)
  match_predictions : List (String × PredictionUpdate)
  deriving DecidableEq

/-- Dictionary read `d[k]` / `k in d`: first binding of `k`, if any. -/
def getAssoc {β : Type} : List (String × β) → String → Option β
  | [], _ => none
  | (k2, v) :: rest, k => if k2 = k then some v else getAssoc rest k

/-- Dictionary write `d[k] = v`: replace the binding of `k`, appending a new
binding if `k` is absent. -/
def setAssoc {β : Type} : List (String × β) → String → β → List (String × β)
  | [], k, v => [(k, v)]
  | (k2, v2) :: rest, k, v =>
      if k2 = k then (k, v) :: rest else (k2, v2) :: setAssoc rest k v

/-- Line 342: `time_factor = max(0.1, (90 - minute) / 90)`. -/
def timeFactor (minute : ℤ) : ℚ := max 0.1 (((90 - minute : ℤ) : ℚ) / 90)

/-- Lines 345-353: the raw (pre-normalization) win and loss probabilities as
a function of `score_diff` and `time_factor`. -/
def rawWinLoss (score_diff : ℤ) (time_factor : ℚ) : ℚ × ℚ :=
  if score_diff > 0 then
    (0.6 + ((score_diff : ℚ) * 0.15) * (1 - time_factor),
     0.2 - ((score_diff : ℚ) * 0.05) * (1 - time_factor))
  else if score_diff < 0 then
    (0.2 + ((score_diff : ℚ) * 0.05) * (1 - time_factor),
     0.6 - ((score_diff : ℚ) * 0.15) * (1 - time_factor))
  else
    (0.4, 0.4)

/-- Computed live prediction: win, draw, loss, confidence. -/
structure LiveProbs where
  win : ℚ
  draw : ℚ
  loss : ℚ
  confidence : ℚ
  deriving DecidableEq

/-- Lines 337-372 of `_update_live_predictions`: the live probability
recomputation from the current score and minute (the values the source then
rounds to 3 decimals when building `PredictionUpdate`). -/
def livePredictionCalc (home_score away_score minute : ℤ) : LiveProbs :=
  let time_factor := timeFactor minute
  let score_diff := home_score - away_score
  let wl := rawWinLoss score_diff time_factor
  let win_prob := wl.1
  let loss_prob := wl.2
  let draw_prob := max 0.1 (1 - win_prob - loss_prob)
  let total := win_prob + draw_prob + loss_prob
  ⟨win_prob / total, draw_prob / total, loss_prob / total, 1 - time_factor⟩

/-- `_update_live_predictions(match_id)`: if the match id is unknown, return
with no change; otherwise recompute the prediction from the current state and
store it in `match_predictions`. -/
def updateLivePredictions (s : LiveMatchService) (match_id : String) :
    LiveMatchService :=
  match getAssoc s.live_matches match_id with
  | none => s
  | some m =>
      let p := livePredictionCalc m.home_score m.away_score m.minute
      { s with
        match_predictions := setAssoc s.match_predictions match_id
          ⟨match_id, m.home_team, m.away_team, p.win, p.draw, p.loss,
            p.confidence, "Live-Adjusted"⟩ }

/-- Lines 286-328, `update_match_score(match_id, home_score, away_score,
minute)`.  Returns the `False`/`True` result together with the new service
state.  Faithful to the source's statement order: the match's fields are
overwritten first (`match1`), and only afterwards does the goal-event guard
compare the arguments against the (already overwritten) fields, so the guard
reads `home_score != match1.home_score or away_score != match1.away_score`. -/
def update_match_score (s : LiveMatchService) (match_id : String)
    (home_score away_score minute : ℤ) : Bool × LiveMatchService :=
  match getAssoc s.live_matches match_id with
  | none => (false, s)
  | some match0 =>
      let match1 := { match0 with
        home_score := home_score, away_score := away_score, minute := minute }
      let match2 :=
        if home_score ≠ match1.home_score ∨ away_score ≠ match1.away_score then
          { match1 with
            events := match1.events ++
              [⟨"goal", minute,
                if home_score > match1.home_score then match1.home_team
                else match1.away_team,
                (home_score, away_score)⟩] }
        else match1
      let s1 : LiveMatchService :=
        { s with live_matches := setAssoc s.live_matches match_id match2 }
      (true, updateLivePredictions s1 match_id)

/-- Spec §4.5 bullet 1: `win` for the three `score_diff` signs. -/
def specWin (score_diff : ℤ) (time_factor : ℚ) : ℚ :=
  if score_diff > 0 then 0.6 + (score_diff : ℚ) * 0.15 * (1 - time_factor)
  else if score_diff < 0 then 0.2 + (score_diff : ℚ) * 0.05 * (1 - time_factor)
  else 0.4

/-- Spec §4.5 bullet 2: `loss` for the three `score_diff` signs. -/
def specLoss (score_diff : ℤ) (time_factor : ℚ) : ℚ :=
  if score_diff > 0 then 0.2 - (score_diff : ℚ) * 0.05 * (1 - time_factor)
  else if score_diff < 0 then 0.6 - (score_diff : ℚ) * 0.15 * (1 - time_factor)
  else 0.4

/-- Spec §4.5, assembled as written: `score_diff = home_score - away_score`,
`time_factor = max(0.1, (90 - minute)/90)`, `draw = max(0.1, 1 - win -
loss)`, all three divided by their sum, `confidence = 1 - time_factor`. -/
def specLivePrediction (home_score away_score minute : ℤ) : LiveProbs :=
  let time_factor : ℚ := max 0.1 (((90 - minute : ℤ) : ℚ) / 90)
  let score_diff := home_score - away_score
  let w := specWin score_diff time_factor
  let l := specLoss score_diff time_factor
  let d := max 0.1 (1 - w - l)
  let sum := w + d + l
  ⟨w / sum, d / sum, l / sum, 1 - time_factor⟩

/-- A live match mid-game, used as a concrete state for the update claims. -/
def sampleMatch : LiveMatchUpdate :=
  ⟨"m1", "HomeFC", "AwayFC", 50, 1, 1, "live", []⟩

/-- A service tracking `sampleMatch` under id `m1`. -/
def sampleService : LiveMatchService := ⟨[("m1", sampleMatch)], []⟩

/-- A live match at 0-0, minute 10, used for the goal-event claim. -/
def goallessMatch : LiveMatchUpdate :=
  ⟨"m1", "HomeFC", "AwayFC", 10, 0, 0, "live", []⟩

/-- A service tracking `goallessMatch` under id `m1`. -/
def goallessService : LiveMatchService := ⟨[("m1", goallessMatch)], []⟩

/-- A finished match (terminal status `full-time`). -/
def finishedMatch : LiveMatchUpdate :=
  ⟨"m1", "HomeFC", "AwayFC", 90, 2, 0, "full-time", []⟩

/-- A service tracking `finishedMatch` under id `m1`. -/
def finishedService : LiveMatchService := ⟨[("m1", finishedMatch)], []⟩

/-! ### Rolling windows (src/pl_predictor.py, create_rolling_features)

The source computes, per team and per column, pandas
`rolling(w, closed='left', min_periods=1).mean()` over the team's rows in
`date` order: the window at row `i` consists of the previous `w` values
(rows `i-w` to `i-1`), and a row whose window is empty (the team's first
row) gets NaN.  Only the `.std()` columns receive `.fillna(0)`; the rolling
means do not. -/

/-- The `closed='left'` window of width `w` at position `i`: the last
`min w i` of the first `i` values. -/
def rollingWindowLeft (w : ℕ) (xs : List ℚ) (i : ℕ) : List ℚ :=
  (xs.take i).drop (i - w)

/-- Pandas `xs.rolling(w, closed='left', min_periods=1).mean()` for a
team's column values `xs` in date order; `none` models NaN (empty window,
fewer than `min_periods` observations). -/
def rollingMeanLeft (w : ℕ) (xs : List ℚ) : List (Option ℚ) :=
  (List.range xs.length).map (fun i =>
    let win := rollingWindowLeft w xs i
    if win.length = 0 then none else some (win.sum / (win.length : ℚ)))

/-- The spec's §4.2 FIFO buffer push: insert the new entry; when the buffer
is at capacity `w`, evict the oldest first. -/
def fifoPush (w : ℕ) (buf : List ℚ) (x : ℚ) : List ℚ :=
  if buf.length < w then buf ++ [x] else buf.tail ++ [x]

/-- The spec's per-team rolling buffer after observing the values `xs` in
chronological order (starting empty). -/
def fifoBuffer (w : ℕ) (xs : List ℚ) : List ℚ := xs.foldl (fifoPush w) []

/-! ### Elo-style ratings (src/pl_predictor.py, create_team_strength_features)

Floats are modelled as real numbers: the expected score uses `10 ** x` for
a real exponent `x`.  The source sorts the rows by `date`, initializes
every team appearing anywhere in the log to 1500, and then, for each row in
order: reads both current ratings, records them, and only then applies the
update for that row. -/

/-- One row of the match log as consumed by the rating loop (a team's
perspective of one fixture).  `date` is the match date as an ordinal day. -/
structure Row where
  date : ℤ
  team : String
  opponent : String
  result : String
  deriving DecidableEq

/-- Line 201: `expected_team = 1 / (1 + 10**((opp_rating - team_rating) / 400))`. -/
noncomputable def expectedScore (team_rating opp_rating : ℝ) : ℝ :=
  1 / (1 + (10 : ℝ) ^ ((opp_rating - team_rating) / 400))

/-- Lines 203-208: `actual_team` is 1 for `"W"`, 0.5 for `"D"`, else 0. -/
def actualScore (result : String) : ℝ :=
  if result = "W" then 1 else if result = "D" then 0.5 else 0

/-- Lines 199-211: the new `(team, opponent)` rating pair produced by one
match result, with `k_factor = 32`. -/
noncomputable def eloUpdate (team_rating opp_rating : ℝ) (result : String) :
    ℝ × ℝ :=
  let k_factor : ℝ := 32
  let expected_team := expectedScore team_rating opp_rating
  let actual_team := actualScore result
  (team_rating + k_factor * (actual_team - expected_team),
   opp_rating + k_factor * ((1 - actual_team) - (1 - expected_team)))

/-- Lines 180-182: `team_ratings` starts with every team at 1500. -/
def initialRatings : String → ℝ := fun _ => 1500

/-- Lines 187-214, one loop iteration's effect on the rating store: read
both ratings, update both.  The opponent's write happens second in the
source, so it wins if `team = opponent`. -/
noncomputable def eloStep (rs : String → ℝ) (row : Row) : String → ℝ :=
  let p := eloUpdate (rs row.team) (rs row.opponent) row.result
  fun x => if x = row.opponent then p.2 else if x = row.team then p.1 else rs x

/-- The whole loop of lines 187-218: for each row in order, record the
current `(team_rating, opp_rating)` pair (the values written into the
`team_rating` / `opp_rating` feature columns), then apply the update. -/
noncomputable def eloRecorded (rs : String → ℝ) : List Row → List (ℝ × ℝ)
  | [] => []
  | row :: rest => (rs row.team, rs row.opponent) :: eloRecorded (eloStep rs row) rest

/-- The rating store after folding the update over a prefix of the log. -/
noncomputable def eloPrefixState (rs : String → ℝ) (rows : List Row) :
    String → ℝ :=
  rows.foldl eloStep rs

/-- Spec §4.1 as written: `E = 1 / (1 + 10^((R_opp - R_team)/400))`, `A` is
1.0 Win / 0.5 Draw / 0.0 Loss, `R_team' = R_team + K*(A - E)` with `K = 32`,
and the opponent updates symmetrically with `(1-A)` and `(1-E)`. -/
noncomputable def specEloUpdate (r_team r_opp : ℝ) (result : String) : ℝ × ℝ :=
  let e : ℝ := 1 / (1 + (10 : ℝ) ^ ((r_opp - r_team) / 400))
  let a : ℝ := if result = "W" then 1.0 else if result = "D" then 0.5 else 0.0
  (r_team + 32 * (a - e), r_opp + 32 * ((1 - a) - (1 - e)))

/-- First perspective row of a fixture played between `A` and `B` on day 0:
`A` beat `B`. -/
def rowAvsB : Row := ⟨0, "A", "B", "W"⟩

/-- Second perspective row of the same fixture, same `date`: `B` lost to
`A`.  The log stores two such rows per real-world match. -/
def rowBvsA : Row := ⟨0, "B", "A", "L"⟩

/-! ### Helper lemmas -/

theorem getAssoc_setAssoc {β : Type} (l : List (String × β)) (k : String) (v : β) :
    getAssoc (setAssoc l k v) k = some v := by
  induction l with
  | nil => simp [setAssoc, getAssoc]
  | cons p rest ih =>
      obtain ⟨k2, v2⟩ := p
      by_cases h : k2 = k
      · simp [setAssoc, h, getAssoc]
      · simp [setAssoc, h, getAssoc, ih]

theorem update_match_score_eq (s : LiveMatchService) (match_id : String)
    (home_score away_score minute : ℤ) (m : LiveMatchUpdate)
    (h : getAssoc s.live_matches match_id = some m) :
    update_match_score s match_id home_score away_score minute =
      (true,
        { live_matches := setAssoc s.live_matches match_id
            { m with home_score := home_score, away_score := away_score,
                     minute := minute },
          match_predictions := setAssoc s.match_predictions match_id
            ⟨match_id, m.home_team, m.away_team,
             (livePredictionCalc home_score away_score minute).win,
             (livePredictionCalc home_score away_score minute).draw,
             (livePredictionCalc home_score away_score minute).loss,
             (livePredictionCalc home_score away_score minute).confidence,
             "Live-Adjusted"⟩ }) := by
  unfold update_match_score
  rw [h]
  simp [updateLivePredictions, getAssoc_setAssoc]

/-! ### Theorems for the claims -/

/-- C10: an update for an unregistered match id returns `False` and leaves
the whole service state (matches, events, predictions) unchanged. -/
theorem unknown_match_rejected (s : LiveMatchService) (match_id : String)
    (home_score away_score minute : ℤ)
    (h : getAssoc s.live_matches match_id = none) :
    update_match_score s match_id home_score away_score minute = (false, s) := by
  unfold update_match_score
  rw [h]

/-- Witness for `unknown_match_rejected`: the empty service at id `m9`. -/
theorem unknown_match_rejected_witness :
    getAssoc (LiveMatchService.mk [] []).live_matches "m9" = none ∧
    update_match_score ⟨[], []⟩ "m9" 1 0 5 = (false, ⟨[], []⟩) :=
  ⟨rfl, unknown_match_rejected ⟨[], []⟩ "m9" 1 0 5 rfl⟩

/-- C6 counterexample: an update that lowers both the minute (10 < 50) and
the scores of `sampleMatch` is not rejected: it returns `True` and
overwrites the state, so no `NonMonotonicUpdate` rejection exists. -/
theorem nonmonotonic_update_accepted :
    (update_match_score sampleService "m1" 0 0 10).1 = true ∧
    getAssoc (update_match_score sampleService "m1" 0 0 10).2.live_matches "m1" =
      some { sampleMatch with home_score := 0, away_score := 0, minute := 10 } ∧
    (10 : ℤ) < sampleMatch.minute ∧ (0 : ℤ) < sampleMatch.home_score := by
  refine ⟨?_, ?_, by decide, by decide⟩
  · rw [update_match_score_eq sampleService "m1" 0 0 10 sampleMatch rfl]
  · rw [update_match_score_eq sampleService "m1" 0 0 10 sampleMatch rfl]
    exact getAssoc_setAssoc _ _ _

/-- C6 amended: `update_match_score` performs no monotonicity validation at
all — any update for a registered match, decreasing or not, returns `True`
and overwrites the scores and minute. -/
theorem update_applied_unconditionally (s : LiveMatchService)
    (match_id : String) (home_score away_score minute : ℤ)
    (m : LiveMatchUpdate) (h : getAssoc s.live_matches match_id = some m) :
    (update_match_score s match_id home_score away_score minute).1 = true ∧
    getAssoc (update_match_score s match_id home_score away_score
        minute).2.live_matches match_id =
      some { m with home_score := home_score, away_score := away_score,
                    minute := minute } := by
  rw [update_match_score_eq s match_id home_score away_score minute m h]
  exact ⟨rfl, getAssoc_setAssoc _ _ _⟩

/-- Witness for `update_applied_unconditionally` at a concrete decreasing
update. -/
theorem update_applied_unconditionally_witness :
    getAssoc sampleService.live_matches "m1" = some sampleMatch ∧
    ((update_match_score sampleService "m1" 1 0 20).1 = true ∧
      getAssoc (update_match_score sampleService "m1" 1 0
          20).2.live_matches "m1" =
        some { sampleMatch with home_score := 1, away_score := 0,
                                minute := 20 }) :=
  ⟨rfl, update_applied_unconditionally sampleService "m1" 1 0 20 sampleMatch rfl⟩

/-- C9 counterexample: `finishedMatch` has terminal status `full-time`, yet
a further update is accepted (`True`) and mutates the state — there is no
`MatchAlreadyFinished` rejection. -/
theorem fulltime_update_accepted :
    finishedMatch.status = "full-time" ∧
    (update_match_score finishedService "m1" 2 1 95).1 = true ∧
    getAssoc (update_match_score finishedService "m1" 2 1 95).2.live_matches "m1" =
      some { finishedMatch with home_score := 2, away_score := 1, minute := 95 } := by
  refine ⟨rfl, ?_, ?_⟩
  · rw [update_match_score_eq finishedService "m1" 2 1 95 finishedMatch rfl]
  · rw [update_match_score_eq finishedService "m1" 2 1 95 finishedMatch rfl]
    exact getAssoc_setAssoc _ _ _

/-- C9 amended: updates are applied regardless of the match's status; in
particular a match whose status is already the terminal `full-time` still
accepts updates and is overwritten. -/
theorem update_applied_after_fulltime (s : LiveMatchService)
    (match_id : String) (home_score away_score minute : ℤ)
    (m : LiveMatchUpdate) (h : getAssoc s.live_matches match_id = some m)
    (hstatus : m.status = "full-time") :
    (update_match_score s match_id home_score away_score minute).1 = true ∧
    getAssoc (update_match_score s match_id home_score away_score
        minute).2.live_matches match_id =
      some { m with home_score := home_score, away_score := away_score,
                    minute := minute } := by
  rw [update_match_score_eq s match_id home_score away_score minute m h]
  exact ⟨rfl, getAssoc_setAssoc _ _ _⟩

/-- Witness for `update_applied_after_fulltime` on `finishedService`. -/
theorem update_applied_after_fulltime_witness :
    getAssoc finishedService.live_matches "m1" = some finishedMatch ∧
    finishedMatch.status = "full-time" ∧
    ((update_match_score finishedService "m1" 3 0 99).1 = true ∧
      getAssoc (update_match_score finishedService "m1" 3 0
          99).2.live_matches "m1" =
        some { finishedMatch with home_score := 3, away_score := 0,
                                  minute := 99 }) :=
  ⟨rfl, rfl,
    update_applied_after_fulltime finishedService "m1" 3 0 99 finishedMatch rfl rfl⟩

/-- C7: the goal-event guard compares the arguments against the fields it
has just overwritten, so it can never fire: an accepted update that raises
the home score from 0 to 1 appends no event at all. -/
theorem goal_event_not_appended :
    goallessMatch.events = [] ∧ goallessMatch.home_score = 0 ∧
    (getAssoc (update_match_score goallessService "m1" 1 0
        15).2.live_matches "m1").map LiveMatchUpdate.events = some [] := by
  refine ⟨rfl, rfl, ?_⟩
  rw [update_match_score_eq goallessService "m1" 1 0 15 goallessMatch rfl]
  rw [getAssoc_setAssoc]
  rfl

theorem fifoBuffer_append (w : ℕ) (xs : List ℚ) (x : ℚ) :
    fifoBuffer w (xs ++ [x]) = fifoPush w (fifoBuffer w xs) x := by
  unfold fifoBuffer
  rw [List.foldl_append]
  rfl

theorem fifoBuffer_eq_drop (w : ℕ) (hw : 0 < w) (xs : List ℚ) :
    fifoBuffer w xs = xs.drop (xs.length - w) := by
  induction xs using List.reverseRecOn with
  | nil => simp [fifoBuffer]
  | append_singleton ys y ih =>
      have hlen : (ys ++ [y]).length = ys.length + 1 := by
        simp
      rw [fifoBuffer_append, ih]
      unfold fifoPush
      rw [List.length_drop]
      by_cases h : ys.length - (ys.length - w) < w
      · rw [if_pos h]
        have h0 : ys.length - w = 0 := by omega
        have h1 : (ys ++ [y]).length - w = 0 := by
          rw [hlen]
          omega
        rw [h0, h1, List.drop_zero, List.drop_zero]
      · rw [if_neg h]
        have hyw : w ≤ ys.length := by omega
        rw [List.tail_drop]
        have h2 : (ys ++ [y]).length - w = ys.length - w + 1 := by
          rw [hlen]
          omega
        rw [h2, List.drop_append_of_le_length (by omega)]

/-- C8 amended: for window size `w` and a team's prior-value sequence `xs`,
the spec's FIFO buffer after the first `i` matches never exceeds `w`
entries, equals the `closed='left'` window of the code (the at most `w`
most recent prior values, oldest evicted first), and the code's recorded
rolling mean at row `i` is the average over that buffer — except that a
team's first row (`i = 0`, empty buffer) is NaN (`none`), not 0.0. -/
theorem rolling_mean_is_fifo_average (w : ℕ) (hw : 0 < w) (xs : List ℚ)
    (i : ℕ) (hi : i < xs.length) :
    (fifoBuffer w (xs.take i)).length ≤ w ∧
    fifoBuffer w (xs.take i) = rollingWindowLeft w xs i ∧
    (rollingMeanLeft w xs).get? i =
      some (if i = 0 then none
        else some ((fifoBuffer w (xs.take i)).sum /
          ((fifoBuffer w (xs.take i)).length : ℚ))) := by
  have htake : (xs.take i).length = i := by
    rw [List.length_take]
    omega
  have hbuf : fifoBuffer w (xs.take i) = (xs.take i).drop (i - w) := by
    rw [fifoBuffer_eq_drop w hw, htake]
  refine ⟨?_, ?_, ?_⟩
  · rw [hbuf, List.length_drop, htake]
    omega
  · rw [hbuf]
    rfl
  · unfold rollingMeanLeft
    rw [List.get?_map, List.get?_range hi]
    simp only [Option.map_some']
    congr 1
    by_cases h0 : i = 0
    · subst h0
      simp [rollingWindowLeft]
    · have hlen : (rollingWindowLeft w xs i).length ≠ 0 := by
        unfold rollingWindowLeft
        rw [List.length_drop, htake]
        omega
      rw [if_neg hlen, if_neg h0, hbuf]
      rfl

/-- Witness for `rolling_mean_is_fifo_average` at `w = 3`,
`xs = [1, 2, 3, 4]`, `i = 2`. -/
theorem rolling_mean_is_fifo_average_witness :
    0 < 3 ∧ 2 < ([1, 2, 3, 4] : List ℚ).length ∧
    ((fifoBuffer 3 (([1, 2, 3, 4] : List ℚ).take 2)).length ≤ 3 ∧
      fifoBuffer 3 (([1, 2, 3, 4] : List ℚ).take 2) =
        rollingWindowLeft 3 [1, 2, 3, 4] 2 ∧
      (rollingMeanLeft 3 [1, 2, 3, 4]).get? 2 =
        some (if 2 = 0 then none
          else some ((fifoBuffer 3 (([1, 2, 3, 4] : List ℚ).take 2)).sum /
            ((fifoBuffer 3 (([1, 2, 3, 4] : List ℚ).take 2)).length : ℚ)))) :=
  ⟨by norm_num, by norm_num,
    rolling_mean_is_fifo_average 3 (by norm_num) [1, 2, 3, 4] 2 (by norm_num)⟩

/-- C8 counterexample: for a team's first match the `closed='left'` rolling
mean of the code is NaN (`none`), an undefined value — not the defined
default 0.0 the claim asserts. -/
theorem rolling_first_match_undefined :
    rollingMeanLeft 3 [(2 : ℚ)] = [none] ∧ (none : Option ℚ) ≠ some 0 := by
  exact ⟨rfl, by simp⟩

/-- C4: the live recomputation of `_update_live_predictions` agrees with
the §4.5 spec formula (score-sign cases, `draw = max(0.1, 1 - win - loss)`,
normalization by the sum, `confidence = 1 - time_factor`) on every input. -/
theorem live_prediction_matches_spec (home_score away_score minute : ℤ) :
    livePredictionCalc home_score away_score minute =
      specLivePrediction home_score away_score minute := by
  unfold livePredictionCalc specLivePrediction rawWinLoss specWin specLoss timeFactor
  rcases lt_trichotomy (home_score - away_score) 0 with h | h | h
  · have h1 : ¬ (home_score - away_score > 0) := by omega
    simp [h, h1]
  · have h1 : ¬ (home_score - away_score > 0) := by omega
    have h2 : ¬ (home_score - away_score < 0) := by omega
    simp [h1, h2]
  · simp [h]

theorem normalized_triple (w d l : ℚ) (hw : 0 ≤ w) (hd : 0 < d) (hl : 0 ≤ l) :
    w / (w + d + l) + d / (w + d + l) + l / (w + d + l) = 1 ∧
    0 ≤ w / (w + d + l) ∧ w / (w + d + l) ≤ 1 ∧
    0 ≤ d / (w + d + l) ∧ d / (w + d + l) ≤ 1 ∧
    0 ≤ l / (w + d + l) ∧ l / (w + d + l) ≤ 1 := by
  have htot : 0 < w + d + l := by linarith
  refine ⟨?_, div_nonneg hw htot.le, (div_le_one htot).2 (by linarith),
    div_nonneg hd.le htot.le, (div_le_one htot).2 (by linarith),
    div_nonneg hl htot.le, (div_le_one htot).2 (by linarith)⟩
  rw [div_add_div_same, div_add_div_same, div_self htot.ne']

theorem timeFactor_le_one (minute : ℤ) (hm : 0 ≤ minute) :
    timeFactor minute ≤ 1 := by
  unfold timeFactor
  apply max_le
  · norm_num
  · rw [div_le_one (by norm_num : (0:ℚ) < 90)]
    exact_mod_cast (by omega : (90 - minute : ℤ) ≤ 90)

theorem rawWinLoss_nonneg (home_score away_score minute : ℤ)
    (hminute : 0 ≤ minute)
    (hdiff : |((home_score - away_score : ℤ) : ℚ)| * (1 - timeFactor minute) ≤ 4) :
    0 ≤ (rawWinLoss (home_score - away_score) (timeFactor minute)).1 ∧
    0 ≤ (rawWinLoss (home_score - away_score) (timeFactor minute)).2 := by
  have hu0 : 0 ≤ 1 - timeFactor minute := by
    have := timeFactor_le_one minute hminute
    linarith
  rcases lt_trichotomy (home_score - away_score) 0 with h | h | h
  · have h1 : ¬ (home_score - away_score > 0) := by omega
    have hq : ((home_score - away_score : ℤ) : ℚ) ≤ -1 :=
      by exact_mod_cast (by omega : (home_score - away_score : ℤ) ≤ -1)
    rw [abs_of_neg (by exact_mod_cast h)] at hdiff
    unfold rawWinLoss
    rw [if_neg h1, if_pos h]
    constructor
    · nlinarith [hdiff]
    · nlinarith [mul_nonneg (by linarith : (0:ℚ) ≤ -((home_score - away_score : ℤ) : ℚ)) hu0]
  · have h1 : ¬ (home_score - away_score > 0) := by omega
    have h2 : ¬ (home_score - away_score < 0) := by omega
    unfold rawWinLoss
    rw [if_neg h1, if_neg h2]
    norm_num
  · have hq : (1:ℚ) ≤ ((home_score - away_score : ℤ) : ℚ) :=
      by exact_mod_cast (by omega : (1:ℤ) ≤ home_score - away_score)
    rw [abs_of_pos (by exact_mod_cast h)] at hdiff
    unfold rawWinLoss
    rw [if_pos h]
    constructor
    · nlinarith [mul_nonneg (by linarith : (0:ℚ) ≤ ((home_score - away_score : ℤ) : ℚ)) hu0]
    · nlinarith [hdiff]

/-- C5 amended: for minutes `0 ≤ minute` and score margins small enough that
the raw trailing-side probability stays nonnegative — precisely when
`|score_diff| * (1 - time_factor) ≤ 4` — the normalized probabilities sum
to exactly 1 and each lies in `[0, 1]`.  (For larger leads, e.g. 5-0 at
minute 85, the raw and hence normalized losing-side probability is
negative; see the counterexample.) -/
theorem live_probs_valid (home_score away_score minute : ℤ)
    (hminute : 0 ≤ minute)
    (hdiff : |((home_score - away_score : ℤ) : ℚ)| * (1 - timeFactor minute) ≤ 4) :
    (livePredictionCalc home_score away_score minute).win +
      (livePredictionCalc home_score away_score minute).draw +
      (livePredictionCalc home_score away_score minute).loss = 1 ∧
    0 ≤ (livePredictionCalc home_score away_score minute).win ∧
    (livePredictionCalc home_score away_score minute).win ≤ 1 ∧
    0 ≤ (livePredictionCalc home_score away_score minute).draw ∧
    (livePredictionCalc home_score away_score minute).draw ≤ 1 ∧
    0 ≤ (livePredictionCalc home_score away_score minute).loss ∧
    (livePredictionCalc home_score away_score minute).loss ≤ 1 := by
  obtain ⟨hw0, hl0⟩ := rawWinLoss_nonneg home_score away_score minute hminute hdiff
  have hd0 : (0:ℚ) < max 0.1
      (1 - (rawWinLoss (home_score - away_score) (timeFactor minute)).1
        - (rawWinLoss (home_score - away_score) (timeFactor minute)).2) :=
    lt_of_lt_of_le (by norm_num) (le_max_left _ _)
  have h := normalized_triple
    (rawWinLoss (home_score - away_score) (timeFactor minute)).1
    (max 0.1 (1 - (rawWinLoss (home_score - away_score) (timeFactor minute)).1
      - (rawWinLoss (home_score - away_score) (timeFactor minute)).2))
    (rawWinLoss (home_score - away_score) (timeFactor minute)).2 hw0 hd0 hl0
  simpa [livePredictionCalc] using h

/-- Witness for `live_probs_valid`: home 1-0 at minute 45. -/
theorem live_probs_valid_witness :
    (0 : ℤ) ≤ 45 ∧
    |((1 - 0 : ℤ) : ℚ)| * (1 - timeFactor 45) ≤ 4 ∧
    ((livePredictionCalc 1 0 45).win + (livePredictionCalc 1 0 45).draw +
        (livePredictionCalc 1 0 45).loss = 1 ∧
      0 ≤ (livePredictionCalc 1 0 45).win ∧
      (livePredictionCalc 1 0 45).win ≤ 1 ∧
      0 ≤ (livePredictionCalc 1 0 45).draw ∧
      (livePredictionCalc 1 0 45).draw ≤ 1 ∧
      0 ≤ (livePredictionCalc 1 0 45).loss ∧
      (livePredictionCalc 1 0 45).loss ≤ 1) :=
  ⟨by norm_num, by norm_num [timeFactor, max_def],
    live_probs_valid 1 0 45 (by norm_num) (by norm_num [timeFactor, max_def])⟩

/-- C5 counterexample: at 5-0 in minute 85 the produced loss probability is
negative, so it does not lie in `[0, 1]`. -/
theorem live_probs_negative_loss : (livePredictionCalc 5 0 85).loss < 0 := by
  norm_num [livePredictionCalc, rawWinLoss, timeFactor, max_def]

/-- C2: every single rating update is zero-sum: the team's gain is exactly
the opponent's loss, equivalently the sum of the two ratings is unchanged. -/
theorem elo_rating_conservation (team_rating opp_rating : ℝ) (result : String) :
    (eloUpdate team_rating opp_rating result).1 - team_rating =
      -((eloUpdate team_rating opp_rating result).2 - opp_rating) ∧
    (eloUpdate team_rating opp_rating result).1 +
        (eloUpdate team_rating opp_rating result).2 =
      team_rating + opp_rating := by
  constructor
  · simp only [eloUpdate]
    ring
  · simp only [eloUpdate]
    ring

/-- C3: the code's rating update coincides with the spec formula
`R_team' = R_team + 32 * (A - E)` with
`E = 1 / (1 + 10^((R_opp - R_team)/400))`, `A` = 1.0 Win / 0.5 Draw /
0.0 Loss, and the symmetric `(1-A)`, `(1-E)` opponent update. -/
theorem elo_update_matches_spec (r_team r_opp : ℝ) (result : String) :
    eloUpdate r_team r_opp result = specEloUpdate r_team r_opp result := by
  simp only [eloUpdate, specEloUpdate, expectedScore, actualScore]
  split_ifs <;> norm_num

theorem eloRecorded_get (rows : List Row) :
    ∀ (rs : String → ℝ) (i : ℕ),
      (eloRecorded rs rows).get? i =
        (rows.get? i).map (fun row =>
          (((rows.take i).foldl eloStep rs) row.team,
           ((rows.take i).foldl eloStep rs) row.opponent)) := by
  induction rows with
  | nil =>
      intro rs i
      simp [eloRecorded]
  | cons row rest ih =>
      intro rs i
      cases i with
      | zero => simp [eloRecorded]
      | succ n =>
          simp only [eloRecorded, List.get?_cons_succ, List.take_succ_cons,
            List.foldl_cons]
          exact ih (eloStep rs row) n

/-- C1 amended: the recorded `(team_rating, opp_rating)` pair of row `i` is
exactly the rating state obtained by folding the update over the first `i`
rows of the date-sorted row sequence: both teams' values are read before
row `i`'s own update is applied, and only strictly earlier rows — by row
position, not by strictly earlier `match_date` — contribute. -/
theorem elo_features_prematch (rows : List Row) (i : ℕ) :
    (eloRecorded initialRatings rows).get? i =
      (rows.get? i).map (fun row =>
        (eloPrefixState initialRatings (rows.take i) row.team,
         eloPrefixState initialRatings (rows.take i) row.opponent)) :=
  eloRecorded_get rows initialRatings i

theorem expectedScore_equal_ratings : expectedScore 1500 1500 = 1 / 2 := by
  unfold expectedScore
  rw [show ((1500:ℝ) - 1500) / 400 = 0 by norm_num, Real.rpow_zero]
  norm_num

/-- C1 counterexample: the two perspective rows of one fixture share the
same `match_date`, yet the second row's recorded ratings (1484, 1516)
already include that very fixture's outcome — a computation using only
strictly earlier `match_date`s would record the initial (1500, 1500). -/
theorem elo_same_date_leaks :
    rowAvsB.date = rowBvsA.date ∧
    eloRecorded initialRatings [rowAvsB, rowBvsA] =
      [(1500, 1500), (1484, 1516)] ∧
    (1484 : ℝ) ≠ 1500 := by
  refine ⟨rfl, ?_, by norm_num⟩
  have hAB : ("A" : String) ≠ "B" := by decide
  have hBA : ("B" : String) ≠ "A" := by decide
  have hLW : ("L" : String) ≠ "W" := by decide
  have hLD : ("L" : String) ≠ "D" := by decide
  simp only [eloRecorded, eloStep, eloUpdate, initialRatings, actualScore,
    rowAvsB, rowBvsA, expectedScore_equal_ratings]
  norm_num [hAB, hBA, hLW, hLD, expectedScore_equal_ratings]

end PLPred
